import Mathlib

/-!
Verification of the spaced-repetition / learning-session domain of the
it-bank-questions backend, as a shallow embedding in Lean 4.

Python numeric conventions used throughout the embedding:
* Python `float` values are modelled as exact rationals (`ℚ`);
* Python `int` values are modelled as `ℤ` (or `ℕ` for counters);
* `int(x)` applied to a float truncates toward zero (`pyTrunc`);
* timestamps (`datetime`) are modelled as whole seconds since an epoch (`ℤ`),
  with `now` passed explicitly wherever the source calls `datetime.now()`.
-/

/-- Python `int(x)` on a float truncates toward zero: the floor for
nonnegative arguments and the ceiling (written `-⌊-q⌋`) for negative ones. -/
def pyTrunc (q : ℚ) : ℤ := if q < 0 then -⌊-q⌋ else ⌊q⌋

/-- Errors raised by the embedded Python code.  `frozenInstanceError` is what
`dataclasses` raises on attribute assignment to a `frozen=True` instance;
`typeError` is the builtin `TypeError`. -/
inductive PyError where
  | entityValidation
  | invalidStateTransition
  | sessionExpired
  | entityNotFound
  | businessRuleViolation (msg : String)
  | valueError
  | frozenInstanceError
  | typeError
  deriving DecidableEq, Repr

/-- `DifficultyRating` from `src/domain/value_objects/difficulty_level.py`:
the learner's post-answer rating (1=Easy .. 4=VeryHard). -/
inductive DifficultyRating where
  | easy
  | medium
  | hard
  | veryHard
  deriving DecidableEq, Repr

namespace DifficultyRating

/-- `DifficultyRating.to_ease_factor_modifier`. -/
def to_ease_factor_modifier : DifficultyRating → ℚ
  | easy => 0.15
  | medium => 0
  | hard => -0.15
  | veryHard => -0.3

/-- `DifficultyRating.to_interval_modifier`. -/
def to_interval_modifier : DifficultyRating → ℚ
  | easy => 1.3
  | medium => 1
  | hard => 0.6
  | veryHard => 0

end DifficultyRating

/-- `CardState` from `src/domain/value_objects/card_state.py`. -/
inductive CardState where
  | new
  | learning
  | review
  | relearning
  | suspended
  | buried
  deriving DecidableEq, Repr

/-- `ReviewInterval` from `src/domain/value_objects/card_state.py`
(a `frozen=True` dataclass). -/
structure ReviewInterval where
  learning_steps : List ℕ
  graduating_interval : ℕ
  easy_interval : ℕ
  starting_ease : ℚ
  easy_bonus : ℚ
  interval_modifier : ℚ
  maximum_interval : ℕ
  leech_threshold : ℕ
  deriving DecidableEq, Repr

namespace ReviewInterval

/-- `ReviewInterval.default` (the Anki-like preset). -/
def defaultConfig : ReviewInterval where
  learning_steps := [1, 10]
  graduating_interval := 1
  easy_interval := 4
  starting_ease := 2.5
  easy_bonus := 1.3
  interval_modifier := 1
  maximum_interval := 36500
  leech_threshold := 8

/-- `ReviewInterval.aggressive`. -/
def aggressive : ReviewInterval where
  learning_steps := [1, 5]
  graduating_interval := 1
  easy_interval := 2
  starting_ease := 2
  easy_bonus := 1.15
  interval_modifier := 0.8
  maximum_interval := 180
  leech_threshold := 4

/-- `ReviewInterval.relaxed`. -/
def relaxed : ReviewInterval where
  learning_steps := [5, 20, 60]
  graduating_interval := 3
  easy_interval := 7
  starting_ease := 3
  easy_bonus := 1.5
  interval_modifier := 1.2
  maximum_interval := 36500
  leech_threshold := 12

end ReviewInterval

/-- `CardStatistics` from `src/domain/entities/spaced_repetition.py`. -/
structure CardStatistics where
  total_reviews : ℕ := 0
  total_correct : ℕ := 0
  total_time_seconds : ℤ := 0
  lapses : ℕ := 0
  last_ease_factor : ℚ := 2.5
  last_interval_days : ℤ := 0
  deriving DecidableEq, Repr

namespace CardStatistics

/-- `CardStatistics.accuracy_rate`. -/
def accuracy_rate (s : CardStatistics) : ℚ :=
  if s.total_reviews = 0 then 0
  else ((s.total_correct : ℚ) / (s.total_reviews : ℚ)) * 100

end CardStatistics

/-- `SpacedRepetitionCard` from `src/domain/entities/spaced_repetition.py`.
UUIDs are modelled as `ℕ`; `due_date` and `last_reviewed_at` as epoch
seconds. -/
structure SpacedRepetitionCard where
  user_id : ℕ
  question_id : ℕ
  state : CardState := .new
  ease_factor : ℚ := 2.5
  interval_days : ℤ := 0
  due_date : ℤ := 0
  last_reviewed_at : Option ℤ := none
  statistics : CardStatistics := {}
  review_config : ReviewInterval := ReviewInterval.defaultConfig
  learning_step : ℕ := 0
  deriving DecidableEq, Repr

namespace SpacedRepetitionCard

/-- `SpacedRepetitionCard._get_current_learning_interval`:
`steps[learning_step]` when in range, else the last step, else 10. -/
def get_current_learning_interval (c : SpacedRepetitionCard) : ℕ :=
  if c.learning_step < c.review_config.learning_steps.length then
    c.review_config.learning_steps.getD c.learning_step 0
  else
    c.review_config.learning_steps.getLastD 10

/-- `SpacedRepetitionCard.calculate_next_interval`.  The Python method
mutates `self.learning_step` (learning branch) and `self.statistics.lapses`
(review/relearning lapse branch); the embedding returns the interval together
with the updated card.  The Python `else` branch covers every non-new,
non-learning state. -/
def calculate_next_interval (c : SpacedRepetitionCard) (rating : DifficultyRating) :
    ℤ × SpacedRepetitionCard :=
  match c.state with
  | .new =>
    match rating with
    | .veryHard => (0, c)
    | .hard => (1, c)
    | .medium => ((c.review_config.graduating_interval : ℤ), c)
    | .easy => ((c.review_config.easy_interval : ℤ), c)
  | .learning =>
    match rating with
    | .veryHard => (0, { c with learning_step := 0 })
    | .hard => ((c.get_current_learning_interval : ℤ), c)
    | .medium =>
      let c' := { c with learning_step := c.learning_step + 1 }
      if c'.learning_step ≥ c'.review_config.learning_steps.length then
        ((c'.review_config.graduating_interval : ℤ), c')
      else
        ((c'.get_current_learning_interval : ℤ), c')
    | .easy => ((c.review_config.easy_interval : ℤ), c)
  | _ =>
    let (rawInterval, c') :=
      if rating = .veryHard then
        ((1 : ℤ), { c with statistics := { c.statistics with lapses := c.statistics.lapses + 1 } })
      else
        let modifier := rating.to_interval_modifier
        let base := pyTrunc ((c.interval_days : ℚ) * c.ease_factor * modifier *
          c.review_config.interval_modifier)
        let withBonus :=
          if rating = .easy then pyTrunc ((base : ℚ) * c.review_config.easy_bonus)
          else base
        (withBonus, c)
    let capped := min rawInterval (c'.review_config.maximum_interval : ℤ)
    (max 1 capped, c')

/-- Ease-factor block of `SpacedRepetitionCard.review`: updated
(except for new cards) as `min(5.0, max(1.3, ease + rating delta))`. -/
def review_easeStep (c : SpacedRepetitionCard) (rating : DifficultyRating) :
    SpacedRepetitionCard :=
  if c.state ≠ .new then
    { c with ease_factor := min 5 (max 1.3 (c.ease_factor + rating.to_ease_factor_modifier)) }
  else c

/-- State-update block of `SpacedRepetitionCard.review`, applied after the
next interval has been stored. -/
def review_stateStep (c : SpacedRepetitionCard) (rating : DifficultyRating) :
    SpacedRepetitionCard :=
  match c.state with
  | .new =>
    match rating with
    | .veryHard => { c with state := .learning, learning_step := 0 }
    | .hard => { c with state := .learning, learning_step := 0 }
    | .medium => { c with state := .learning, learning_step := 0 }
    | .easy => { c with state := .review }
  | .learning =>
    if c.learning_step ≥ c.review_config.learning_steps.length then
      { c with state := .review }
    else c
  | .review =>
    if rating = DifficultyRating.veryHard then
      { c with state := .relearning, learning_step := 0 }
    else c
  | .relearning =>
    if rating ≠ DifficultyRating.veryHard then { c with state := .review }
    else c
  | _ => c

/-- Due-date block of `SpacedRepetitionCard.review`: a zero interval means
review again in `_get_current_learning_interval` minutes, otherwise in
`interval_days` days. -/
def review_dueDateStep (c : SpacedRepetitionCard) (now : ℤ) :
    SpacedRepetitionCard :=
  if c.interval_days = 0 then
    { c with due_date := now + 60 * (c.get_current_learning_interval : ℤ) }
  else
    { c with due_date := now + 86400 * c.interval_days }

/-- Statistics/timestamp block of `SpacedRepetitionCard.review`. -/
def review_statsStep (c : SpacedRepetitionCard) (rating : DifficultyRating)
    (time_seconds : ℤ) (now : ℤ) : SpacedRepetitionCard :=
  { c with
    statistics :=
      { c.statistics with
        total_reviews := c.statistics.total_reviews + 1
        total_correct :=
          if rating ≠ DifficultyRating.veryHard then c.statistics.total_correct + 1
          else c.statistics.total_correct
        total_time_seconds := c.statistics.total_time_seconds + time_seconds
        last_ease_factor := c.ease_factor
        last_interval_days := c.interval_days }
    last_reviewed_at := some now }

/-- `SpacedRepetitionCard.review`, the composition of the four blocks of the
Python method in source order: ease update, next-interval calculation (whose
result is stored in `interval_days`), state update, due-date update, then
statistics and timestamps.  `now` stands for `datetime.now()`. -/
def review (c : SpacedRepetitionCard) (rating : DifficultyRating)
    (time_seconds : ℤ) (now : ℤ) : SpacedRepetitionCard :=
  let c1 := review_easeStep c rating
  let pr := calculate_next_interval c1 rating
  let c3 := { pr.2 with interval_days := pr.1 }
  let c4 := review_stateStep c3 rating
  let c5 := review_dueDateStep c4 now
  review_statsStep c5 rating time_seconds now

end SpacedRepetitionCard

/-- A concrete `review`-state card with `interval_days = 10` and
`ease_factor = 2.5`, matching the worked example of the spec. -/
def exampleReviewCard : SpacedRepetitionCard :=
  { user_id := 7, question_id := 21, state := .review, ease_factor := 2.5, interval_days := 10 }

/-- A concrete `review`-state card starting from `ease_factor = 1.35`. -/
def exampleEase135Card : SpacedRepetitionCard :=
  { user_id := 7, question_id := 22, state := .review, ease_factor := 1.35, interval_days := 3 }

/-- The uncapped next interval of the review/relearning branch for a
non-VeryHard rating, exactly as the claim words it: the truncated product
`interval_days × ease_factor × rating modifier × global modifier`, with a
further truncated ×`easy_bonus` when the rating is Easy. -/
def reviewBranchRawInterval (c : SpacedRepetitionCard) (r : DifficultyRating) : ℤ :=
  let base := pyTrunc ((c.interval_days : ℚ) * c.ease_factor * r.to_interval_modifier *
    c.review_config.interval_modifier)
  if r = .easy then pyTrunc ((base : ℚ) * c.review_config.easy_bonus) else base

/-- The clamp applied to the ease factor on every non-new review:
`min(5.0, max(1.3, ease + rating delta))`. -/
def easeClamp (e : ℚ) (r : DifficultyRating) : ℚ :=
  min 5 (max 1.3 (e + r.to_ease_factor_modifier))


/-- `SessionStatus` from `src/domain/entities/learning_session.py`. -/
inductive SessionStatus where
  | active
  | paused
  | completed
  | abandoned
  deriving DecidableEq, Repr

namespace SessionStatus

/-- The string value of a `SessionStatus` (it is a `str` enum). -/
def value : SessionStatus → String
  | active => "active"
  | paused => "paused"
  | completed => "completed"
  | abandoned => "abandoned"

end SessionStatus

/-- `SessionMetrics` from `src/domain/entities/learning_session.py`. -/
structure SessionMetrics where
  total_questions : ℕ := 0
  answered_questions : ℕ := 0
  correct_answers : ℕ := 0
  total_time_seconds : ℤ := 0
  active_time_seconds : ℤ := 0
  average_time_per_question : ℚ := 0
  accuracy_rate : ℚ := 0
  deriving DecidableEq, Repr

namespace SessionMetrics

/-- `SessionMetrics.update`: bump the counters, then refresh the running
averages (the guard `answered_questions > 0` always holds after the bump). -/
def update (m : SessionMetrics) (is_correct : Bool) (time_seconds : ℤ) :
    SessionMetrics :=
  let m1 := { m with
    answered_questions := m.answered_questions + 1
    correct_answers := if is_correct then m.correct_answers + 1 else m.correct_answers
    active_time_seconds := m.active_time_seconds + time_seconds }
  if m1.answered_questions > 0 then
    { m1 with
      average_time_per_question :=
        (m1.active_time_seconds : ℚ) / (m1.answered_questions : ℚ)
      accuracy_rate := (m1.correct_answers : ℚ) / (m1.answered_questions : ℚ) * 100 }
  else m1

end SessionMetrics

/-- `LearningSession` from `src/domain/entities/learning_session.py`.
UUIDs are modelled as `ℕ` and timestamps as epoch seconds (`ℤ`); the
base-entity bookkeeping fields (`id`, `created_at`, `updated_at`) carry no
business rules and are omitted. -/
structure LearningSession where
  user_id : ℕ
  facet_id : Option ℕ := none
  status : SessionStatus := .active
  started_at : ℤ := 0
  ended_at : Option ℤ := none
  last_activity_at : ℤ := 0
  metrics : SessionMetrics := {}
  question_limit : Option ℤ := none
  time_limit_minutes : Option ℤ := none
  question_types : List String := []
  difficulty_range : ℤ × ℤ := (1, 5)
  question_queue : List ℕ := []
  answered_questions : List ℕ := []
  current_question_id : Option ℕ := none
  current_question_started_at : Option ℤ := none
  deriving DecidableEq, Repr

namespace LearningSession

/-- `LearningSession.is_active`. -/
def is_active (s : LearningSession) : Bool :=
  decide (s.status = SessionStatus.active)

/-- `LearningSession.is_expired`: an active session expires after 30 minutes
of inactivity. -/
def is_expired (s : LearningSession) (now : ℤ) : Bool :=
  if s.status ≠ SessionStatus.active then false
  else decide (now > s.last_activity_at + 30 * 60)

/-- `LearningSession.has_time_limit_exceeded`: elapsed minutes are the float
division of elapsed seconds by 60. -/
def has_time_limit_exceeded (s : LearningSession) (now : ℤ) : Bool :=
  match s.time_limit_minutes with
  | none => false
  | some l => decide (((now - s.started_at : ℤ) : ℚ) / 60 > (l : ℚ))

/-- `LearningSession.has_question_limit_reached`. -/
def has_question_limit_reached (s : LearningSession) : Bool :=
  match s.question_limit with
  | none => false
  | some l => decide ((s.answered_questions.length : ℤ) ≥ l)

/-- `LearningSession.should_complete`. -/
def should_complete (s : LearningSession) (now : ℤ) : Bool :=
  s.has_time_limit_exceeded now || s.has_question_limit_reached ||
    (s.question_queue.isEmpty && s.current_question_id.isNone)

/-- `LearningSession.resume`: only a paused session can be resumed. -/
def resume (s : LearningSession) (now : ℤ) : Except PyError LearningSession :=
  if s.status ≠ SessionStatus.paused then .error .invalidStateTransition
  else .ok { s with status := .active, last_activity_at := now }

/-- `LearningSession.complete`: only a session that is not already
completed/abandoned can be completed. -/
def complete (s : LearningSession) (now : ℤ) : Except PyError LearningSession :=
  if s.status = SessionStatus.completed ∨ s.status = SessionStatus.abandoned then
    .error .invalidStateTransition
  else
    .ok { s with
      status := .completed
      ended_at := some now
      metrics := { s.metrics with total_time_seconds := now - s.started_at } }

/-- `LearningSession.abandon`. -/
def abandon (s : LearningSession) (now : ℤ) : Except PyError LearningSession :=
  if s.status = SessionStatus.completed ∨ s.status = SessionStatus.abandoned then
    .error .invalidStateTransition
  else
    .ok { s with
      status := .abandoned
      ended_at := some now
      metrics := { s.metrics with total_time_seconds := now - s.started_at } }

/-- `LearningSession.pause`: only an active session can be paused. -/
def pause (s : LearningSession) (now : ℤ) : Except PyError LearningSession :=
  if s.status ≠ SessionStatus.active then .error .invalidStateTransition
  else .ok { s with status := .paused, last_activity_at := now }

/-- The mutation block of `LearningSession.answer_question` once both guards
have passed: fold the elapsed time into the metrics, move the current
question from the queue (first occurrence, when present) to the answered
list, clear the in-flight pointer and refresh the activity timestamp. -/
def answer_updateStep (s : LearningSession) (is_correct : Bool) (now : ℤ)
    (q : ℕ) (t0 : ℤ) : LearningSession :=
  { s with
    metrics := s.metrics.update is_correct (now - t0)
    answered_questions := s.answered_questions ++ [q]
    question_queue :=
      if q ∈ s.question_queue then s.question_queue.erase q else s.question_queue
    current_question_id := none
    current_question_started_at := none
    last_activity_at := now }

/-- `LearningSession.answer_question`: raises invalid-state-transition when
the session is not active, a validation error when no question is in flight
(and, faithfully to Python, a `TypeError` when the in-flight pointer is set
without its start timestamp, since `datetime.now() - None` fails); otherwise
performs the update block and auto-completes when `should_complete` holds.
Returns the elapsed seconds alongside the updated session. -/
def answer_question (s : LearningSession) (is_correct : Bool) (now : ℤ) :
    Except PyError (LearningSession × ℤ) :=
  if !s.is_active then .error .invalidStateTransition
  else
    match s.current_question_id with
    | none => .error .entityValidation
    | some q =>
      match s.current_question_started_at with
      | none => .error .typeError
      | some t0 =>
        let s1 := answer_updateStep s is_correct now q t0
        if s1.should_complete now then do
          let s2 ← s1.complete now
          return (s2, now - t0)
        else .ok (s1, now - t0)

end LearningSession

/-- The dictionary built by `LearningSession.to_dict` (its keys as fields;
the nested metrics dictionary holds exactly the `SessionMetrics` fields). -/
structure SessionDictData where
  user_id : String
  facet_id : Option String
  status : String
  started_at : ℤ
  ended_at : Option ℤ
  last_activity_at : ℤ
  metrics : SessionMetrics
  question_limit : Option ℤ
  time_limit_minutes : Option ℤ
  question_types : List String
  difficulty_range : List ℤ
  question_queue : List String
  answered_questions : List String
  current_question_id : Option String
  is_expired : Bool
  should_complete : Bool
  deriving DecidableEq, Repr

/-- Calling a Python `dict` object raises `TypeError: dict object is not
callable`.  `LearningSession.to_dict` ends with `return data()` — a call on
the dictionary it just built — so the built dictionary is received here and
a `TypeError` is raised unconditionally. -/
def pyCallDict {α : Type} (_d : α) : Except PyError α := .error .typeError

namespace LearningSession

/-- The dictionary contents assembled by `LearningSession.to_dict` before
its final `return data()` line. -/
def to_dict_data (s : LearningSession) (now : ℤ) : SessionDictData where
  user_id := toString s.user_id
  facet_id := s.facet_id.map toString
  status := s.status.value
  started_at := s.started_at
  ended_at := s.ended_at
  last_activity_at := s.last_activity_at
  metrics := s.metrics
  question_limit := s.question_limit
  time_limit_minutes := s.time_limit_minutes
  question_types := s.question_types
  difficulty_range := [s.difficulty_range.1, s.difficulty_range.2]
  question_queue := s.question_queue.map toString
  answered_questions := s.answered_questions.map toString
  current_question_id := s.current_question_id.map toString
  is_expired := s.is_expired now
  should_complete := s.should_complete now

/-- `LearningSession.to_dict`: builds the dictionary, then executes
`return data()`, which calls the dict object and raises `TypeError`. -/
def to_dict (s : LearningSession) (now : ℤ) : Except PyError SessionDictData :=
  pyCallDict (s.to_dict_data now)

end LearningSession

/-- A concrete paused session. -/
def examplePausedSession : LearningSession :=
  { user_id := 3, status := .paused, started_at := 0, last_activity_at := 0 }

/-- A concrete active session with one question in flight and nothing else
queued. -/
def exampleActiveSession : LearningSession :=
  { user_id := 3
    status := .active
    started_at := 0
    last_activity_at := 90
    question_queue := [11]
    current_question_id := some 11
    current_question_started_at := some 100 }

/-- `FacetProgress` from `src/domain/entities/progress.py` (the fields the
mastery-score calculation reads). -/
structure FacetProgress where
  user_id : ℕ
  facet_id : ℕ
  total_questions : ℕ := 0
  seen_questions : ℕ := 0
  mastered_questions : ℕ := 0
  mastery_score : ℚ := 0
  total_time_spent_seconds : ℤ := 0
  accuracy_rate : ℚ := 0
  average_response_time : ℚ := 0
  difficulty_comfort : ℚ := 3
  current_streak_days : ℕ := 0
  longest_streak_days : ℕ := 0
  deriving DecidableEq, Repr

namespace FacetProgress

/-- `FacetProgress.completion_percentage`. -/
def completion_percentage (p : FacetProgress) : ℚ :=
  if p.total_questions = 0 then 0
  else (p.seen_questions : ℚ) / (p.total_questions : ℚ) * 100

/-- `FacetProgress.mastery_percentage`. -/
def mastery_percentage (p : FacetProgress) : ℚ :=
  if p.total_questions = 0 then 0
  else (p.mastered_questions : ℚ) / (p.total_questions : ℚ) * 100

/-- `FacetProgress.calculate_mastery_score`: the weighted sum
`0.4·masteredPct + 0.3·accuracy + 0.2·completionPct + min(10, streak/3)`
clamped to 100 and stored in `mastery_score`. -/
def calculate_mastery_score (p : FacetProgress) : FacetProgress :=
  { p with
    mastery_score :=
      min 100 (0.4 * p.mastery_percentage + 0.3 * p.accuracy_rate +
        0.2 * p.completion_percentage +
        min 10 ((p.current_streak_days : ℚ) / 3)) }

end FacetProgress

/-- The concrete `FacetProgress` of the spec example: mastered percentage
50 (5 of 10), accuracy 80, completion 60 (6 of 10), 9-day streak. -/
def exampleFacetProgress : FacetProgress :=
  { user_id := 3, facet_id := 8, total_questions := 10, seen_questions := 6,
    mastered_questions := 5, accuracy_rate := 80, current_streak_days := 9 }

/-- The per-user card statistics consumed by `optimize_review_schedule`
(the dictionary returned by `card_repo.get_statistics`, with the `.get`
defaults of the source). -/
structure UserCardStatsSummary where
  average_ease_factor : ℚ := 2.5
  success_rate : ℚ := 0.7
  average_lapses : ℚ := 2
  deriving DecidableEq, Repr

/-- Attribute assignment on a `frozen=True` dataclass instance raises
`dataclasses.FrozenInstanceError`.  `ReviewInterval` is frozen, so the
assignment `config.interval_modifier = ...` in
`SpacedRepetitionService.optimize_review_schedule` raises instead of
updating the configuration. -/
def frozenSetIntervalModifier (_config : ReviewInterval) (_value : ℚ) :
    Except PyError ReviewInterval :=
  .error .frozenInstanceError

/-- `SpacedRepetitionService.optimize_review_schedule`, as a function of the
statistics summary: relaxed when success rate > 0.85 and ease > 2.7,
aggressive when success rate < 0.6 or average lapses > 5, otherwise the
default preset with `interval_modifier` assigned 0.9 or 1.1 — an assignment
that hits the frozen-dataclass error. -/
def optimize_review_schedule (stats : UserCardStatsSummary) :
    Except PyError ReviewInterval :=
  if stats.success_rate > 0.85 ∧ stats.average_ease_factor > 2.7 then
    .ok ReviewInterval.relaxed
  else if stats.success_rate < 0.6 ∨ stats.average_lapses > 5 then
    .ok ReviewInterval.aggressive
  else do
    let config := ReviewInterval.defaultConfig
    let config ← frozenSetIntervalModifier config
      (if stats.success_rate < 0.7 then 0.9 else 1.1)
    return config

/-- Middle-band statistics: success rate 0.75, ease 2.5, lapses 2. -/
def exampleMidBandStats : UserCardStatsSummary :=
  { average_ease_factor := 2.5, success_rate := 0.75, average_lapses := 2 }

/-- The abstract operations of a `BaseImporter` subclass
(`src/infrastructure/importers/base_importer.py`): the five abstract
methods.  `parse_file` stands for the parsed item list of the file under
import. -/
structure ImportOps (α : Type) where
  validate_file : Bool
  parse_file : List α
  validate_item : α → List String
  item_exists : α → Bool
  import_item : α → Bool
  get_item_id : α → String

/-- The accumulator of `BaseImporter._process_batch`, plus an
instrumentation counter of how many times `import_item` was invoked. -/
structure BatchResult where
  imported : ℕ := 0
  skipped : ℕ := 0
  errors : List String := []
  import_calls : ℕ := 0
  deriving DecidableEq, Repr

/-- One iteration of the item loop of `BaseImporter._process_batch`:
validate, skip when the item exists, count as imported without writing in
dry-run/validate-only mode, otherwise call `import_item` and record success
or an error entry. -/
def process_item {α : Type} (ops : ImportOps α) (dry_run validate_only : Bool)
    (acc : BatchResult) (item : α) : BatchResult :=
  if ops.validate_item item ≠ [] then
    { acc with errors := acc.errors ++ [ops.get_item_id item] }
  else if ops.item_exists item then
    { acc with skipped := acc.skipped + 1 }
  else if dry_run || validate_only then
    { acc with imported := acc.imported + 1 }
  else if ops.import_item item then
    { acc with imported := acc.imported + 1, import_calls := acc.import_calls + 1 }
  else
    { acc with errors := acc.errors ++ [ops.get_item_id item],
               import_calls := acc.import_calls + 1 }

/-- `BaseImporter._process_batch`: fold the item loop over one batch. -/
def process_batch {α : Type} (ops : ImportOps α) (dry_run validate_only : Bool)
    (batch : List α) : BatchResult :=
  batch.foldl (process_item ops dry_run validate_only) {}

/-- `ImportResult` from `base_importer.py` (the fields the claim reads;
errors are represented by their item ids). -/
structure ImportResult where
  total_items : ℕ := 0
  imported : ℕ := 0
  skipped : ℕ := 0
  failed : ℕ := 0
  errors : List String := []
  deriving DecidableEq, Repr

/-- The batching of `import_file`: Python iterates
`range(0, len(items), batch_size)` taking `items[i:i+batch_size]` slices.
A zero batch size raises in Python (`range` step 0) and is excluded by the
claims, which require a positive batch size. -/
def pyChunks {α : Type} (n : ℕ) (l : List α) : List (List α) :=
  if _hn : n = 0 then []
  else match l with
    | [] => []
    | x :: xs => (x :: xs).take n :: pyChunks n ((x :: xs).drop n)
termination_by l.length
decreasing_by
  simp only [List.length_drop, List.length_cons]
  omega

/-- `BaseImporter.import_file`: validate the file (an invalid file yields a
single `file` error entry), parse it, return early on an empty item list,
process the items in batches merging per-batch counts and errors, then set
`failed` to the number of accumulated errors.  The wall-clock
`processing_time_seconds` field carries no business rule and is omitted. -/
def import_file {α : Type} (ops : ImportOps α) (batch_size : ℕ)
    (dry_run validate_only : Bool) : ImportResult :=
  if ¬ ops.validate_file then
    { total_items := 0, imported := 0, skipped := 0, failed := 1, errors := ["file"] }
  else
    let items := ops.parse_file
    if items.isEmpty then { total_items := items.length }
    else
      let merged := (pyChunks batch_size items).foldl
        (fun (acc : ImportResult) (batch : List α) =>
          let br := process_batch ops dry_run validate_only batch
          { acc with
            imported := acc.imported + br.imported
            skipped := acc.skipped + br.skipped
            errors := acc.errors ++ br.errors })
        ({ total_items := items.length } : ImportResult)
      { merged with failed := merged.errors.length }

/-- Instrumentation: the total number of `import_item` invocations made by
`import_file`. -/
def import_file_calls {α : Type} (ops : ImportOps α) (batch_size : ℕ)
    (dry_run validate_only : Bool) : ℕ :=
  if ¬ ops.validate_file then 0
  else (pyChunks batch_size ops.parse_file).foldl
    (fun acc batch => acc + (process_batch ops dry_run validate_only batch).import_calls) 0

/-- A concrete importer run: three items, all valid and all already
existing. -/
def exampleImportOps : ImportOps ℕ where
  validate_file := true
  parse_file := [1, 2, 3]
  validate_item := fun _ => []
  item_exists := fun _ => true
  import_item := fun _ => true
  get_item_id := fun n => toString n

/-- `QuestionMetadata` (the hints list consumed by the hint use case). -/
structure QuestionMetadata where
  hints : List String := []
  deriving DecidableEq, Repr

/-- `Question` (the fields the hint use case reads). -/
structure Question where
  id : ℕ
  metadata : QuestionMetadata := {}
  deriving DecidableEq, Repr

/-- A `hint_requested` `LearningEvent` of the session under consideration,
as returned by `event_repo.get_session_events(session_id,
[EventType.HINT_REQUESTED])`: the repository already filters by session and
event type, so only the correlation ids remain. -/
structure HintEvent where
  user_id : ℕ
  question_id : ℕ
  deriving DecidableEq, Repr

/-- `RequestHintRequest` from
`src/application/dto/request/learning_dto.py`. -/
structure RequestHintRequest where
  question_id : ℕ
  session_id : ℕ
  hint_level : ℤ := 1
  deriving DecidableEq, Repr

namespace RequestHintRequest

/-- `RequestHintRequest.validate`: the hint level must be between 1 and 3.
(The `not self.question_id` / `not self.session_id` guards can never fire:
a Python `UUID` object is always truthy.) -/
def validate (r : RequestHintRequest) : Except PyError Unit :=
  if r.hint_level < 1 ∨ r.hint_level > 3 then .error .valueError else .ok ()

end RequestHintRequest

/-- `HintResponse` from the response DTOs. -/
structure HintResponse where
  hint_text : String
  hint_level : ℤ
  hints_remaining : ℤ
  deriving DecidableEq, Repr

/-- `RequestHintUseCase._count_hints_used`: the number of hint events of
this session that match the question and the user. -/
def count_hints_used (events : List HintEvent) (user_id question_id : ℕ) : ℕ :=
  (events.filter (fun e => decide (e.question_id = question_id ∧ e.user_id = user_id))).length

/-- `RequestHintUseCase.execute`, as a function of the repository lookups:
the session (with ownership check folded into the not-found guard, as in
the source), the question, and the hint events of the session.  Mirrors the
guard order of the source: request validation, session lookup/ownership,
session activity, question lookup, question-in-session check, hint
availability, already-used level, level beyond the defined hints; then the
1-indexed hint is returned with the remaining count. -/
def execute_request_hint (request : RequestHintRequest) (user_id : ℕ)
    (session : Option LearningSession) (question : Option Question)
    (events : List HintEvent) : Except PyError HintResponse :=
  match request.validate with
  | .error e => .error e
  | .ok _ =>
    match session with
    | none => .error .entityNotFound
    | some s =>
      if s.user_id ≠ user_id then .error .entityNotFound
      else if !s.is_active then .error (.businessRuleViolation "Session is not active")
      else
        match question with
        | none => .error .entityNotFound
        | some qn =>
          if s.current_question_id ≠ some request.question_id ∧
              request.question_id ∉ s.answered_questions ∧
              request.question_id ∉ s.question_queue then
            .error (.businessRuleViolation "Question is not part of current session")
          else
            let available_hints := qn.metadata.hints
            if available_hints.isEmpty then
              .error (.businessRuleViolation "No hints available for this question")
            else
              let hints_used := count_hints_used events user_id request.question_id
              if request.hint_level ≤ (hints_used : ℤ) then
                .error (.businessRuleViolation "This hint level already used")
              else if request.hint_level > (available_hints.length : ℤ) then
                .error (.businessRuleViolation "Hint level not available")
              else
                let hint_text := available_hints.getD (request.hint_level - 1).toNat ""
                .ok { hint_text := hint_text
                      hint_level := request.hint_level
                      hints_remaining := (available_hints.length : ℤ) - request.hint_level }

/-- A concrete hint request: level 1 for question 5 in session 9. -/
def exampleHintRequest : RequestHintRequest :=
  { question_id := 5, session_id := 9, hint_level := 1 }

/-- A concrete owned, active session with question 5 in flight. -/
def exampleHintSession : LearningSession :=
  { user_id := 3
    status := .active
    question_queue := [5]
    current_question_id := some 5
    current_question_started_at := some 0 }

/-- A concrete question defining two hints. -/
def exampleHintQuestion : Question :=
  { id := 5, metadata := { hints := ["think about X", "it is Y"] } }

/-! ## Supporting lemmas -/

namespace SpacedRepetitionCard

theorem calc_ease (c : SpacedRepetitionCard) (r : DifficultyRating) :
    (calculate_next_interval c r).2.ease_factor = c.ease_factor := by
  cases h : c.state <;> cases r <;>
    simp [calculate_next_interval, h, apply_ite]

theorem calc_total_reviews (c : SpacedRepetitionCard) (r : DifficultyRating) :
    (calculate_next_interval c r).2.statistics.total_reviews =
      c.statistics.total_reviews := by
  cases h : c.state <;> cases r <;>
    simp [calculate_next_interval, h, apply_ite]

theorem calc_total_correct (c : SpacedRepetitionCard) (r : DifficultyRating) :
    (calculate_next_interval c r).2.statistics.total_correct =
      c.statistics.total_correct := by
  cases h : c.state <;> cases r <;>
    simp [calculate_next_interval, h, apply_ite]

theorem stateStep_ease (c : SpacedRepetitionCard) (r : DifficultyRating) :
    (review_stateStep c r).ease_factor = c.ease_factor := by
  cases h : c.state <;> cases r <;> simp [review_stateStep, h, apply_ite]

theorem stateStep_interval (c : SpacedRepetitionCard) (r : DifficultyRating) :
    (review_stateStep c r).interval_days = c.interval_days := by
  cases h : c.state <;> cases r <;> simp [review_stateStep, h, apply_ite]

theorem stateStep_statistics (c : SpacedRepetitionCard) (r : DifficultyRating) :
    (review_stateStep c r).statistics = c.statistics := by
  cases h : c.state <;> cases r <;> simp [review_stateStep, h, apply_ite]

theorem dueDateStep_ease (c : SpacedRepetitionCard) (now : ℤ) :
    (review_dueDateStep c now).ease_factor = c.ease_factor := by
  simp [review_dueDateStep, apply_ite]

theorem dueDateStep_interval (c : SpacedRepetitionCard) (now : ℤ) :
    (review_dueDateStep c now).interval_days = c.interval_days := by
  simp [review_dueDateStep, apply_ite]

theorem dueDateStep_statistics (c : SpacedRepetitionCard) (now : ℤ) :
    (review_dueDateStep c now).statistics = c.statistics := by
  simp [review_dueDateStep, apply_ite]

theorem statsStep_ease (c : SpacedRepetitionCard) (r : DifficultyRating)
    (t now : ℤ) : (review_statsStep c r t now).ease_factor = c.ease_factor := rfl

theorem statsStep_interval (c : SpacedRepetitionCard) (r : DifficultyRating)
    (t now : ℤ) : (review_statsStep c r t now).interval_days = c.interval_days := rfl

/-- The ease factor written by `review`: unchanged for new cards, otherwise
clamped into `[1.3, 5.0]` after adding the rating delta. -/
theorem review_ease_factor (c : SpacedRepetitionCard) (r : DifficultyRating)
    (t now : ℤ) :
    (c.review r t now).ease_factor =
      if c.state = .new then c.ease_factor else easeClamp c.ease_factor r := by
  show (review_statsStep (review_dueDateStep (review_stateStep _ _) _) _ _ _).ease_factor = _
  rw [statsStep_ease, dueDateStep_ease, stateStep_ease]
  show (calculate_next_interval (review_easeStep c r) r).2.ease_factor = _
  rw [calc_ease]
  by_cases h : c.state = .new <;> simp [review_easeStep, easeClamp, h]

/-- One review keeps the ease factor inside `[1.3, 5.0]`. -/
theorem review_ease_mem (c : SpacedRepetitionCard) (r : DifficultyRating)
    (t now : ℤ) (h13 : 1.3 ≤ c.ease_factor) (h5 : c.ease_factor ≤ 5) :
    1.3 ≤ (c.review r t now).ease_factor ∧ (c.review r t now).ease_factor ≤ 5 := by
  rw [review_ease_factor]
  by_cases h : c.state = .new
  · rw [if_pos h]
    exact ⟨h13, h5⟩
  · rw [if_neg h]
    unfold easeClamp
    exact ⟨le_min (by norm_num) (le_max_left _ _), min_le_left _ _⟩

end SpacedRepetitionCard

namespace SpacedRepetitionCard

/-- The interval written by `review` on a non-new card is the one computed by
`calculate_next_interval` from the card carrying the already-updated ease
factor. -/
theorem review_interval_uses_updated_ease (c : SpacedRepetitionCard)
    (r : DifficultyRating) (t now : ℤ) (h : c.state ≠ .new) :
    (c.review r t now).interval_days =
      (calculate_next_interval { c with ease_factor := easeClamp c.ease_factor r } r).1 := by
  show (review_statsStep (review_dueDateStep (review_stateStep _ _) _) _ _ _).interval_days = _
  rw [statsStep_interval, dueDateStep_interval, stateStep_interval]
  show (calculate_next_interval (review_easeStep c r) r).1 = _
  simp [review_easeStep, easeClamp, h]

theorem easeStep_statistics (c : SpacedRepetitionCard) (r : DifficultyRating) :
    (review_easeStep c r).statistics = c.statistics := by
  by_cases h : c.state = .new <;> simp [review_easeStep, h]

theorem review_total_reviews (c : SpacedRepetitionCard) (r : DifficultyRating)
    (t now : ℤ) :
    (c.review r t now).statistics.total_reviews = c.statistics.total_reviews + 1 := by
  show (review_statsStep (review_dueDateStep (review_stateStep _ _) _) _ _ _).statistics.total_reviews = _
  rw [show ∀ (x : SpacedRepetitionCard) (rr : DifficultyRating) (a b : ℤ),
      (review_statsStep x rr a b).statistics.total_reviews =
        x.statistics.total_reviews + 1 from fun _ _ _ _ => rfl]
  rw [dueDateStep_statistics, stateStep_statistics]
  show (calculate_next_interval (review_easeStep c r) r).2.statistics.total_reviews + 1 = _
  rw [calc_total_reviews, easeStep_statistics]

theorem review_total_correct (c : SpacedRepetitionCard) (r : DifficultyRating)
    (t now : ℤ) :
    (c.review r t now).statistics.total_correct =
      c.statistics.total_correct + (if r = .veryHard then 0 else 1) := by
  show (review_statsStep (review_dueDateStep (review_stateStep _ _) _) _ _ _).statistics.total_correct = _
  rw [show ∀ (x : SpacedRepetitionCard) (rr : DifficultyRating) (a b : ℤ),
      (review_statsStep x rr a b).statistics.total_correct =
        (if rr ≠ DifficultyRating.veryHard then x.statistics.total_correct + 1
          else x.statistics.total_correct) from fun _ _ _ _ => rfl]
  rw [dueDateStep_statistics, stateStep_statistics]
  show (if r ≠ DifficultyRating.veryHard then
      (calculate_next_interval (review_easeStep c r) r).2.statistics.total_correct + 1
    else (calculate_next_interval (review_easeStep c r) r).2.statistics.total_correct) = _
  rw [calc_total_correct, easeStep_statistics]
  by_cases hr : r = .veryHard <;> simp [hr]

end SpacedRepetitionCard

/-! ## Claims -/

/-- Claim C1: for every card in `review` or `relearning` state,
`calculate_next_interval` returns 1 and increments the lapse counter by
exactly 1 when the rating is VeryHard, regardless of prior interval;
otherwise it returns the truncated product
`interval_days × ease_factor × rating modifier × config modifier`
(further ×`easy_bonus`, truncated, when the rating is Easy), capped at
`maximum_interval` and floored at 1 day, with the lapse counter unchanged.
In particular a review card with `interval_days = 10` and
`ease_factor = 2.5` rated Medium yields exactly 25 days. -/
theorem claim_C1 :
    (∀ (c : SpacedRepetitionCard) (r : DifficultyRating),
      c.state = .review ∨ c.state = .relearning →
      (r = .veryHard →
        (c.calculate_next_interval r).1 = 1 ∧
        (c.calculate_next_interval r).2.statistics.lapses = c.statistics.lapses + 1) ∧
      (r ≠ .veryHard →
        (c.calculate_next_interval r).1 =
          max 1 (min (reviewBranchRawInterval c r) (c.review_config.maximum_interval : ℤ)) ∧
        (c.calculate_next_interval r).2.statistics.lapses = c.statistics.lapses)) ∧
    (exampleReviewCard.calculate_next_interval .medium).1 = 25 := by
  refine ⟨?_, ?_⟩
  · intro c r h
    refine ⟨?_, ?_⟩
    · rintro rfl
      rcases h with h | h <;>
        refine ⟨?_, ?_⟩ <;>
          simp [SpacedRepetitionCard.calculate_next_interval, h]
    · intro hr
      rcases h with h | h <;> cases r <;>
        simp_all [SpacedRepetitionCard.calculate_next_interval, reviewBranchRawInterval]
  · simp [exampleReviewCard, SpacedRepetitionCard.calculate_next_interval, pyTrunc,
      DifficultyRating.to_interval_modifier, ReviewInterval.defaultConfig]
    norm_num

/-- Witness for C1: the general statement applied to the concrete review
card of the spec example, rated VeryHard. -/
theorem claim_C1_witness :
    (exampleReviewCard.state = .review ∨ exampleReviewCard.state = .relearning) ∧
    ((exampleReviewCard.calculate_next_interval .veryHard).1 = 1 ∧
      (exampleReviewCard.calculate_next_interval .veryHard).2.statistics.lapses =
        exampleReviewCard.statistics.lapses + 1) :=
  ⟨Or.inl rfl, (claim_C1.1 exampleReviewCard .veryHard (Or.inl rfl)).1 rfl⟩

/-- Claim C2: on every non-new card, `review` first clamps the ease factor
into `[1.3, 5.0]` and only then computes the next interval from the updated
ease; the ease factor of a card starting in `[1.3, 5.0]` stays in that range
after any sequence of reviews, and starting from ease 1.35 repeated VeryHard
ratings never drive it below 1.3. -/
theorem claim_C2 :
    (∀ (c : SpacedRepetitionCard) (r : DifficultyRating) (t now : ℤ),
      c.state ≠ .new →
      (c.review r t now).ease_factor = easeClamp c.ease_factor r ∧
      (c.review r t now).interval_days =
        (SpacedRepetitionCard.calculate_next_interval
          { c with ease_factor := easeClamp c.ease_factor r } r).1) ∧
    (∀ (c : SpacedRepetitionCard) (ops : List (DifficultyRating × ℤ × ℤ)),
      1.3 ≤ c.ease_factor → c.ease_factor ≤ 5 →
      1.3 ≤ (ops.foldl (fun a op => a.review op.1 op.2.1 op.2.2) c).ease_factor ∧
      (ops.foldl (fun a op => a.review op.1 op.2.1 op.2.2) c).ease_factor ≤ 5) ∧
    (∀ n : ℕ,
      1.3 ≤ ((fun a => SpacedRepetitionCard.review a .veryHard 0 0)^[n]
        exampleEase135Card).ease_factor) := by
  refine ⟨?_, ?_, ?_⟩
  · intro c r t now h
    refine ⟨?_, SpacedRepetitionCard.review_interval_uses_updated_ease c r t now h⟩
    rw [SpacedRepetitionCard.review_ease_factor, if_neg h]
  · intro c ops
    induction ops generalizing c with
    | nil => intro h1 h2; simpa using ⟨h1, h2⟩
    | cons op rest ih =>
      intro h1 h2
      simp only [List.foldl_cons]
      obtain ⟨a1, a2⟩ := SpacedRepetitionCard.review_ease_mem c op.1 op.2.1 op.2.2 h1 h2
      exact ih _ a1 a2
  · have key : ∀ n : ℕ,
        1.3 ≤ ((fun a => SpacedRepetitionCard.review a .veryHard 0 0)^[n]
          exampleEase135Card).ease_factor ∧
        ((fun a => SpacedRepetitionCard.review a .veryHard 0 0)^[n]
          exampleEase135Card).ease_factor ≤ 5 := by
      intro n
      induction n with
      | zero =>
        constructor <;> simp [exampleEase135Card] <;> norm_num
      | succ n ih =>
        rw [Function.iterate_succ_apply']
        exact SpacedRepetitionCard.review_ease_mem _ _ _ _ ih.1 ih.2
    exact fun n => (key n).1

/-- Witness for C2: the ease-update equation applied to the concrete card
with ease 1.35 in `review` state, rated VeryHard. -/
theorem claim_C2_witness :
    exampleEase135Card.state ≠ CardState.new ∧
    (exampleEase135Card.review .veryHard 0 0).ease_factor =
      easeClamp exampleEase135Card.ease_factor .veryHard :=
  ⟨by simp [exampleEase135Card],
    (claim_C2.1 exampleEase135Card .veryHard 0 0 (by simp [exampleEase135Card])).1⟩

/-- Claim C10: every review increments `total_reviews` by exactly 1 and
increments `total_correct` exactly when the rating is not VeryHard, so
`accuracy_rate` of a just-reviewed card is the fraction of non-lapse
reviews (`total_correct / total_reviews × 100`). -/
theorem claim_C10 (c : SpacedRepetitionCard) (r : DifficultyRating) (t now : ℤ) :
    (c.review r t now).statistics.total_reviews = c.statistics.total_reviews + 1 ∧
    (c.review r t now).statistics.total_correct =
      c.statistics.total_correct + (if r = .veryHard then 0 else 1) ∧
    (c.review r t now).statistics.accuracy_rate =
      ((c.review r t now).statistics.total_correct : ℚ) /
        ((c.review r t now).statistics.total_reviews : ℚ) * 100 := by
  refine ⟨SpacedRepetitionCard.review_total_reviews c r t now,
    SpacedRepetitionCard.review_total_correct c r t now, ?_⟩
  have h := SpacedRepetitionCard.review_total_reviews c r t now
  simp [CardStatistics.accuracy_rate, h]

/-- Claim C3 (part): behaviour of `answer_question` on an active session
with a question in flight, stated over the successor session. -/
theorem answer_question_ok (s : LearningSession) (b : Bool) (now : ℤ)
    (q : ℕ) (t0 : ℤ) (hact : s.status = .active)
    (hq : s.current_question_id = some q)
    (ht : s.current_question_started_at = some t0) :
    ∃ s' : LearningSession,
      s.answer_question b now = .ok (s', now - t0) ∧
      s'.metrics.answered_questions = s.metrics.answered_questions + 1 ∧
      s'.metrics.active_time_seconds = s.metrics.active_time_seconds + (now - t0) ∧
      s'.metrics.average_time_per_question =
        (s'.metrics.active_time_seconds : ℚ) / (s'.metrics.answered_questions : ℚ) ∧
      s'.answered_questions = s.answered_questions ++ [q] ∧
      s'.question_queue = s.question_queue.erase q ∧
      s'.current_question_id = none ∧
      s'.current_question_started_at = none ∧
      (s'.status = .completed ↔ s'.should_complete now = true) ∧
      (s'.status = .completed ∨ s'.status = .active) := by
  have hison : s.is_active = true := by simp [LearningSession.is_active, hact]
  set s1 := LearningSession.answer_updateStep s b now q t0 with hs1
  have hqueue : s1.question_queue = s.question_queue.erase q := by
    by_cases hmem : q ∈ s.question_queue
    · simp [hs1, LearningSession.answer_updateStep, hmem]
    · simp [hs1, LearningSession.answer_updateStep, hmem, List.erase_of_not_mem hmem]
  have hm : s1.metrics = s.metrics.update b (now - t0) := rfl
  have hupd : s1.metrics.answered_questions = s.metrics.answered_questions + 1 ∧
      s1.metrics.active_time_seconds = s.metrics.active_time_seconds + (now - t0) ∧
      s1.metrics.average_time_per_question =
        (s1.metrics.active_time_seconds : ℚ) / (s1.metrics.answered_questions : ℚ) := by
    rw [hm]
    simp [SessionMetrics.update]
  by_cases hc : s1.should_complete now = true
  · -- auto-completion path: the session is active, so complete() succeeds
    have hst1 : s1.status = .active := hact
    have hcomp : s1.complete now =
        .ok { s1 with
          status := .completed
          ended_at := some now
          metrics := { s1.metrics with total_time_seconds := now - s1.started_at } } := by
      rw [LearningSession.complete, if_neg (by rw [hst1]; simp)]
    refine ⟨{ s1 with
      status := .completed
      ended_at := some now
      metrics := { s1.metrics with total_time_seconds := now - s1.started_at } }, ?_, ?_⟩
    · rw [LearningSession.answer_question]
      simp only [hison, Bool.not_true, Bool.false_eq_true, if_false, hq, ht, ← hs1, hc,
        if_true, hcomp]
      rfl
    · refine ⟨hupd.1, hupd.2.1, hupd.2.2, ?_, hqueue, rfl, rfl, ?_, Or.inl rfl⟩
      · simp [hs1, LearningSession.answer_updateStep]
      · constructor
        · intro _
          simpa [LearningSession.should_complete, LearningSession.has_time_limit_exceeded,
            LearningSession.has_question_limit_reached] using hc
        · intro _; rfl
  · -- no completion: the session stays active
    refine ⟨s1, ?_, hupd.1, hupd.2.1, hupd.2.2, ?_, hqueue, rfl, rfl, ?_, Or.inr hact⟩
    · rw [LearningSession.answer_question]
      simp only [hison, Bool.not_true, Bool.false_eq_true, if_false, hq, ht, ← hs1, hc,
        if_false]
    · simp [hs1, LearningSession.answer_updateStep]
    · constructor
      · intro habs
        have hstat : s1.status = SessionStatus.active := hact
        rw [hstat] at habs
        simp at habs
      · intro habs; exact absurd habs hc

/-- Claim C3: on an active, non-expired session with a question in flight,
`answer_question` returns the elapsed seconds from the in-flight start
timestamp, updates the metrics so that the average time per question is
`active_time_seconds / answered_questions`, moves the question from the
queue to the answered list, clears the in-flight pointer, and transitions
the session to `completed` exactly when `should_complete` then holds; it
raises an invalid-state-transition error when the session is not active and
a validation error when no question is in flight. -/
theorem claim_C3 :
    (∀ (s : LearningSession) (b : Bool) (now : ℤ) (q : ℕ) (t0 : ℤ),
      s.status = .active → s.is_expired now = false →
      s.current_question_id = some q → s.current_question_started_at = some t0 →
      ∃ s' : LearningSession,
        s.answer_question b now = .ok (s', now - t0) ∧
        s'.metrics.answered_questions = s.metrics.answered_questions + 1 ∧
        s'.metrics.active_time_seconds = s.metrics.active_time_seconds + (now - t0) ∧
        s'.metrics.average_time_per_question =
          (s'.metrics.active_time_seconds : ℚ) / (s'.metrics.answered_questions : ℚ) ∧
        s'.answered_questions = s.answered_questions ++ [q] ∧
        s'.question_queue = s.question_queue.erase q ∧
        s'.current_question_id = none ∧
        s'.current_question_started_at = none ∧
        (s'.status = .completed ↔ s'.should_complete now = true) ∧
        (s'.status = .completed ∨ s'.status = .active)) ∧
    (∀ (s : LearningSession) (b : Bool) (now : ℤ),
      s.status ≠ .active →
      s.answer_question b now = .error .invalidStateTransition) ∧
    (∀ (s : LearningSession) (b : Bool) (now : ℤ),
      s.status = .active → s.current_question_id = none →
      s.answer_question b now = .error .entityValidation) := by
  refine ⟨?_, ?_, ?_⟩
  · intro s b now q t0 hact _ hq ht
    exact answer_question_ok s b now q t0 hact hq ht
  · intro s b now h
    simp [LearningSession.answer_question, LearningSession.is_active, h]
  · intro s b now hact hnone
    simp [LearningSession.answer_question, LearningSession.is_active, hact, hnone]

/-- Witness for C3: the concrete active session with question 11 in flight,
answered correctly at time 130. -/
theorem claim_C3_witness :
    (exampleActiveSession.status = .active ∧
      exampleActiveSession.is_expired 130 = false ∧
      exampleActiveSession.current_question_id = some 11 ∧
      exampleActiveSession.current_question_started_at = some 100) ∧
    (∃ s' : LearningSession,
      exampleActiveSession.answer_question true 130 = .ok (s', 130 - 100) ∧
      s'.metrics.answered_questions = exampleActiveSession.metrics.answered_questions + 1 ∧
      s'.metrics.active_time_seconds =
        exampleActiveSession.metrics.active_time_seconds + (130 - 100) ∧
      s'.metrics.average_time_per_question =
        (s'.metrics.active_time_seconds : ℚ) / (s'.metrics.answered_questions : ℚ) ∧
      s'.answered_questions = exampleActiveSession.answered_questions ++ [11] ∧
      s'.question_queue = exampleActiveSession.question_queue.erase 11 ∧
      s'.current_question_id = none ∧
      s'.current_question_started_at = none ∧
      (s'.status = .completed ↔ s'.should_complete 130 = true) ∧
      (s'.status = .completed ∨ s'.status = .active)) :=
  ⟨⟨rfl, rfl, rfl, rfl⟩, claim_C3.1 exampleActiveSession true 130 11 100 rfl rfl rfl rfl⟩

/-- Claim C6 holds only in part: `complete()` or `abandon()` on a paused
session does NOT raise — `paused` is not terminal.  This counterexample
completes a concrete paused session successfully. -/
theorem claim_C6_counterexample :
    examplePausedSession.complete 5 =
      Except.ok { examplePausedSession with
        status := .completed
        ended_at := some 5
        metrics := { examplePausedSession.metrics with total_time_seconds := 5 } } := rfl

/-- Claim C6 (amended): `complete()` and `abandon()` raise an invalid-state
transition error exactly on `completed`/`abandoned` sessions (so both
succeed on a paused session), `resume()` raises exactly on non-paused
sessions, and `pause()` raises exactly on non-active sessions. -/
theorem claim_C6 (s : LearningSession) (now : ℤ) :
    (s.complete now = .error .invalidStateTransition ↔
      s.status = .completed ∨ s.status = .abandoned) ∧
    (s.abandon now = .error .invalidStateTransition ↔
      s.status = .completed ∨ s.status = .abandoned) ∧
    (s.resume now = .error .invalidStateTransition ↔ s.status ≠ .paused) ∧
    (s.pause now = .error .invalidStateTransition ↔ s.status ≠ .active) := by
  refine ⟨?_, ?_, ?_, ?_⟩
  · by_cases h : s.status = .completed ∨ s.status = .abandoned <;>
      simp [LearningSession.complete, h]
  · by_cases h : s.status = .completed ∨ s.status = .abandoned <;>
      simp [LearningSession.abandon, h]
  · by_cases h : s.status = .paused <;> simp [LearningSession.resume, h]
  · by_cases h : s.status = .active <;> simp [LearningSession.pause, h]

/-- Claim C9 is a code bug: `LearningSession.to_dict` builds the diagnostic
dictionary but then executes `return data()`, calling the dict object, so
it raises `TypeError` for every session instead of returning the
dictionary. -/
theorem claim_C9 (s : LearningSession) (now : ℤ) :
    s.to_dict now = .error .typeError := rfl

/-- Claim C4: `calculate_mastery_score` stores
`min(100, 0.4·masteredPct + 0.3·accuracy + 0.2·completionPct +
min(10, streak/3))`; the spec example (masteredPct 50, accuracy 80,
completion 60, 9-day streak) yields exactly 59. -/
theorem claim_C4 :
    (∀ p : FacetProgress,
      p.calculate_mastery_score.mastery_score =
        min 100 (0.4 * p.mastery_percentage + 0.3 * p.accuracy_rate +
          0.2 * p.completion_percentage +
          min 10 ((p.current_streak_days : ℚ) / 3))) ∧
    exampleFacetProgress.calculate_mastery_score.mastery_score = 59 := by
  refine ⟨fun p => rfl, ?_⟩
  show min (100 : ℚ) (0.4 * exampleFacetProgress.mastery_percentage +
    0.3 * exampleFacetProgress.accuracy_rate +
    0.2 * exampleFacetProgress.completion_percentage +
    min 10 ((exampleFacetProgress.current_streak_days : ℚ) / 3)) = 59
  have h1 : exampleFacetProgress.mastery_percentage = 50 := by
    simp [FacetProgress.mastery_percentage, exampleFacetProgress]
    norm_num
  have h2 : exampleFacetProgress.completion_percentage = 60 := by
    simp [FacetProgress.completion_percentage, exampleFacetProgress]
    norm_num
  have h3 : min (10 : ℚ) ((exampleFacetProgress.current_streak_days : ℚ) / 3) = 3 := by
    have : ((exampleFacetProgress.current_streak_days : ℕ) : ℚ) / 3 = 3 := by
      simp [exampleFacetProgress]
      norm_num
    rw [this]
    norm_num [min_eq_right]
  rw [h1, h2, h3]
  show min (100 : ℚ) (0.4 * 50 + 0.3 * exampleFacetProgress.accuracy_rate + 0.2 * 60 + 3) = 59
  norm_num [exampleFacetProgress, min_eq_right]

/-- Claim C5 is a code bug: in the middle band the source intends to return
the default `ReviewInterval` with its `interval_modifier` nudged to 0.9 or
1.1, but `ReviewInterval` is a frozen dataclass, so the attribute
assignment raises `FrozenInstanceError` instead of returning. -/
theorem claim_C5 (stats : UserCardStatsSummary)
    (h1 : ¬(stats.success_rate > 0.85 ∧ stats.average_ease_factor > 2.7))
    (h2 : ¬(stats.success_rate < 0.6 ∨ stats.average_lapses > 5)) :
    optimize_review_schedule stats = .error .frozenInstanceError := by
  simp [optimize_review_schedule, h1, h2, frozenSetIntervalModifier]

/-- Witness for C5: the concrete middle-band statistics (success rate 0.75,
ease 2.5, lapses 2) raise the frozen-dataclass error. -/
theorem claim_C5_witness :
    ¬(exampleMidBandStats.success_rate > 0.85 ∧
        exampleMidBandStats.average_ease_factor > 2.7) ∧
    ¬(exampleMidBandStats.success_rate < 0.6 ∨
        exampleMidBandStats.average_lapses > 5) ∧
    optimize_review_schedule exampleMidBandStats = .error .frozenInstanceError := by
  have hA : ¬(exampleMidBandStats.success_rate > 0.85 ∧
      exampleMidBandStats.average_ease_factor > 2.7) := by
    simp [exampleMidBandStats]
    norm_num
  have hB : ¬(exampleMidBandStats.success_rate < 0.6 ∨
      exampleMidBandStats.average_lapses > 5) := by
    simp [exampleMidBandStats]
    norm_num
  exact ⟨hA, hB, claim_C5 exampleMidBandStats hA hB⟩

theorem process_batch_skip_aux {α : Type} (ops : ImportOps α) (d v : Bool)
    (batch : List α)
    (h1 : ∀ x ∈ batch, ops.validate_item x = [])
    (h2 : ∀ x ∈ batch, ops.item_exists x = true) :
    ∀ acc : BatchResult,
      batch.foldl (process_item ops d v) acc =
        { acc with skipped := acc.skipped + batch.length } := by
  induction batch with
  | nil => intro acc; simp
  | cons x xs ih =>
    intro acc
    simp only [List.foldl_cons]
    have hstep : process_item ops d v acc x = { acc with skipped := acc.skipped + 1 } := by
      simp [process_item, h1 x (List.mem_cons_self x xs), h2 x (List.mem_cons_self x xs)]
    rw [hstep, ih (fun y hy => h1 y (List.mem_cons_of_mem x hy))
      (fun y hy => h2 y (List.mem_cons_of_mem x hy))]
    simp only [List.length_cons]
    congr 1
    omega

theorem pyChunks_mem_and_sum {α : Type} (n : ℕ) (l : List α) (hn : n ≠ 0) :
    (∀ b ∈ pyChunks n l, ∀ x ∈ b, x ∈ l) ∧
    ((pyChunks n l).map List.length).sum = l.length := by
  refine pyChunks.induct n
    (fun l => (∀ b ∈ pyChunks n l, ∀ x ∈ b, x ∈ l) ∧
      ((pyChunks n l).map List.length).sum = l.length) ?_ ?_ ?_ l
  · intro x h
    exact absurd h hn
  · intro h
    simp [pyChunks]
  · intro h x xs ih
    rw [pyChunks, dif_neg h]
    obtain ⟨ihm, ihs⟩ := ih
    constructor
    · intro b hb y hy
      rcases List.mem_cons.mp hb with hb | hb
      · subst hb
        exact List.mem_of_mem_take hy
      · exact List.mem_of_mem_drop (ihm b hb y hy)
    · simp only [List.map_cons, List.sum_cons, ihs]
      simp only [List.length_take, List.length_drop, List.length_cons]
      omega

theorem import_merge_fold {α : Type} (ops : ImportOps α) (d v : Bool)
    (batches : List (List α))
    (h : ∀ b ∈ batches, process_batch ops d v b =
      { imported := 0, skipped := b.length, errors := [], import_calls := 0 }) :
    ∀ acc : ImportResult,
      batches.foldl
        (fun (acc : ImportResult) (batch : List α) =>
          let br := process_batch ops d v batch
          { acc with
            imported := acc.imported + br.imported
            skipped := acc.skipped + br.skipped
            errors := acc.errors ++ br.errors }) acc =
        { acc with skipped := acc.skipped + (batches.map List.length).sum } := by
  induction batches with
  | nil => intro acc; simp
  | cons b bs ih =>
    intro acc
    simp only [List.foldl_cons]
    rw [h b (List.mem_cons_self b bs),
      ih (fun y hy => h y (List.mem_cons_of_mem b hy))]
    simp [Nat.add_assoc]

theorem import_calls_fold {α : Type} (ops : ImportOps α) (d v : Bool)
    (batches : List (List α))
    (h : ∀ b ∈ batches, (process_batch ops d v b).import_calls = 0) :
    ∀ acc : ℕ,
      batches.foldl
        (fun acc batch => acc + (process_batch ops d v batch).import_calls) acc = acc := by
  induction batches with
  | nil => intro acc; simp
  | cons b bs ih =>
    intro acc
    simp only [List.foldl_cons, h b (List.mem_cons_self b bs), Nat.add_zero]
    exact ih (fun y hy => h y (List.mem_cons_of_mem b hy)) acc

/-- Claim C7: importing a file whose every item passes validation and
already exists yields `imported = 0`, `skipped = len(items)`, `failed = 0`
(with no error entries), and `import_item` is never invoked. -/
theorem claim_C7 {α : Type} (ops : ImportOps α) (batch_size : ℕ)
    (dry_run validate_only : Bool)
    (hbs : batch_size ≠ 0)
    (hvf : ops.validate_file = true)
    (hval : ∀ x ∈ ops.parse_file, ops.validate_item x = [])
    (hex : ∀ x ∈ ops.parse_file, ops.item_exists x = true) :
    (import_file ops batch_size dry_run validate_only).imported = 0 ∧
    (import_file ops batch_size dry_run validate_only).skipped = ops.parse_file.length ∧
    (import_file ops batch_size dry_run validate_only).failed = 0 ∧
    (import_file ops batch_size dry_run validate_only).errors = [] ∧
    import_file_calls ops batch_size dry_run validate_only = 0 := by
  have hbatch : ∀ b ∈ pyChunks batch_size ops.parse_file,
      process_batch ops dry_run validate_only b =
        { imported := 0, skipped := b.length, errors := [], import_calls := 0 } := by
    intro b hb
    have hmem := (pyChunks_mem_and_sum batch_size ops.parse_file hbs).1 b hb
    have := process_batch_skip_aux ops dry_run validate_only b
      (fun y hy => hval y (hmem y hy)) (fun y hy => hex y (hmem y hy)) {}
    unfold process_batch
    rw [this]
    simp
  by_cases hemp : ops.parse_file.isEmpty
  · have hnil : ops.parse_file = [] := List.isEmpty_iff.mp hemp
    unfold import_file import_file_calls
    simp [hvf, hemp, hnil, pyChunks]
  · unfold import_file import_file_calls
    simp only [hvf, Bool.not_true, Bool.false_eq_true, if_false, hemp, ite_false]
    rw [import_merge_fold ops dry_run validate_only _ hbatch,
      import_calls_fold ops dry_run validate_only _
        (fun b hb => by rw [hbatch b hb])]
    refine ⟨rfl, ?_, ?_, rfl, rfl⟩
    · simp [(pyChunks_mem_and_sum batch_size ops.parse_file hbs).2]
    · rfl

/-- Witness for C7: three valid, already-existing items imported with batch
size 2 — all three are skipped and `import_item` is never called. -/
theorem claim_C7_witness :
    (exampleImportOps.validate_file = true ∧
      (∀ x ∈ exampleImportOps.parse_file, exampleImportOps.validate_item x = []) ∧
      (∀ x ∈ exampleImportOps.parse_file, exampleImportOps.item_exists x = true)) ∧
    ((import_file exampleImportOps 2 false false).imported = 0 ∧
      (import_file exampleImportOps 2 false false).skipped =
        exampleImportOps.parse_file.length ∧
      (import_file exampleImportOps 2 false false).failed = 0 ∧
      (import_file exampleImportOps 2 false false).errors = [] ∧
      import_file_calls exampleImportOps 2 false false = 0) :=
  ⟨⟨rfl, fun _ _ => rfl, fun _ _ => rfl⟩,
    claim_C7 exampleImportOps 2 false false (by decide) rfl
      (fun _ _ => rfl) (fun _ _ => rfl)⟩

/-- Claim C8: for a hint request against an owned, active session whose
question belongs to the session and defines at least one hint (and whose
request passes DTO validation, hint level 1..3), `execute` rejects with a
business-rule violation exactly when the requested level is at most the
number of `hint_requested` events already recorded for that question (and
user) in that session, or exceeds the number of hints the question
defines. -/
theorem claim_C8 (request : RequestHintRequest) (user_id : ℕ)
    (s : LearningSession) (qn : Question) (events : List HintEvent)
    (hlv1 : 1 ≤ request.hint_level) (hlv3 : request.hint_level ≤ 3)
    (hown : s.user_id = user_id)
    (hact : s.status = .active)
    (hpart : s.current_question_id = some request.question_id ∨
      request.question_id ∈ s.answered_questions ∨
      request.question_id ∈ s.question_queue)
    (hhints : qn.metadata.hints ≠ []) :
    (∃ msg, execute_request_hint request user_id (some s) (some qn) events =
        .error (.businessRuleViolation msg)) ↔
      (request.hint_level ≤ (count_hints_used events user_id request.question_id : ℤ) ∨
        request.hint_level > (qn.metadata.hints.length : ℤ)) := by
  have hvalid : request.validate = .ok () := by
    unfold RequestHintRequest.validate
    rw [if_neg]
    omega
  have hisact : s.is_active = true := by
    simp [LearningSession.is_active, hact]
  have hpartc : ¬(s.current_question_id ≠ some request.question_id ∧
      request.question_id ∉ s.answered_questions ∧
      request.question_id ∉ s.question_queue) := by
    intro hcon
    rcases hpart with h | h | h
    · exact hcon.1 h
    · exact hcon.2.1 h
    · exact hcon.2.2 h
  have hne : qn.metadata.hints.isEmpty = false := by
    cases hq : qn.metadata.hints with
    | nil => exact absurd hq hhints
    | cons a l => simp
  simp only [execute_request_hint, hvalid, hown, ne_eq, not_true_eq_false, if_false,
    hisact, Bool.not_true, Bool.false_eq_true, if_neg hpartc, hne]
  by_cases h1 : request.hint_level ≤ (count_hints_used events user_id request.question_id : ℤ)
  · simp [h1]
  · by_cases h2 : request.hint_level > (qn.metadata.hints.length : ℤ)
    · simp [h1, h2]
    · simp [h1, h2]

/-- Witness for C8: with one prior hint event for question 5 by user 3,
requesting level 1 again is rejected (1 ≤ 1 hints used), matching the
claim that requesting level 1 twice fails the second time. -/
theorem claim_C8_witness :
    (1 ≤ exampleHintRequest.hint_level ∧ exampleHintRequest.hint_level ≤ 3 ∧
      exampleHintSession.user_id = 3 ∧ exampleHintSession.status = .active ∧
      exampleHintSession.current_question_id = some exampleHintRequest.question_id ∧
      exampleHintQuestion.metadata.hints ≠ []) ∧
    ((∃ msg, execute_request_hint exampleHintRequest 3 (some exampleHintSession)
        (some exampleHintQuestion) [{ user_id := 3, question_id := 5 }] =
          .error (.businessRuleViolation msg)) ↔
      (exampleHintRequest.hint_level ≤
          (count_hints_used [{ user_id := 3, question_id := 5 }] 3
            exampleHintRequest.question_id : ℤ) ∨
        exampleHintRequest.hint_level >
          (exampleHintQuestion.metadata.hints.length : ℤ))) :=
  ⟨⟨by decide, by decide, rfl, rfl, rfl, by simp [exampleHintQuestion]⟩,
    claim_C8 exampleHintRequest 3 exampleHintSession exampleHintQuestion
      [{ user_id := 3, question_id := 5 }] (by decide) (by decide) rfl rfl
      (Or.inl rfl) (by simp [exampleHintQuestion])⟩
